import Mathlib

/-!
# Verification of the infra registry core against its specification

This file gives a shallow embedding, in Lean 4, of the parts of the infra
server relevant to the frozen claims: password validation
(`internal/access`), credential creation and update (`internal/access`),
the destination-access long-poll handler (`internal/server`), the
notification listener (`internal/server/data`), bootstrap provider
reconciliation (`internal/registry`), secret-provider loading
(`internal/server`), and the bootstrap access-key loader
(`internal/server`).

Go strings are modelled by Lean `String`; `for _, c := range s` iterates
over code points, modelled by `strCodes`; Go `len(s)` is the UTF-8 byte
length, modelled by `goLen`.  Fallible Go functions returning `error`
become `Option`/`Except` values.  Database and network effects are
modelled by explicit state records and oracle parameters.
-/

set_option maxRecDepth 4000

/-! ## Go string primitives -/

/-- Code points of a Go string, as iterated by `for _, c := range s`
(runes, widened to `Nat`). -/
def strCodes (s : String) : List Nat := s.data.map Char.toNat

/-- Go `len(s)`: the byte length of the UTF-8 encoding of `s`. -/
def goLen (s : String) : Nat := (s.data.map Char.utf8Size).sum

/-- `startsWithL hay needle` holds when `needle` is an initial segment of
`hay` (helper for Go `strings.Contains`). -/
def startsWithL : List Nat → List Nat → Bool
  | _, [] => true
  | [], _ :: _ => false
  | a :: as, b :: bs => a == b && startsWithL as bs

/-- Go `strings.Contains(hay, needle)`: `needle` occurs as a contiguous
segment of `hay`.  For valid UTF-8 input, byte-level containment agrees
with code-point-level containment, so the embedding works on code points. -/
def goContains : List Nat → List Nat → Bool
  | [], needle => startsWithL [] needle
  | a :: rest, needle => startsWithL (a :: rest) needle || goContains rest needle

/-! ## Password requirement checks (internal/access, `checkPasswordRequirements`) -/

/-- Loop of `hasRepeat`: Go state is the last-seen rune `char` (zero value
`0`) and the current run length `count`.  A mismatching rune resets the
run; four equal runes in a row return `true`. -/
def hasRepeatGo : List Nat → Nat → Nat → Bool
  | [], _, _ => false
  | c :: rest, char, count =>
    if c != char then hasRepeatGo rest c 1
    else if count + 1 >= 4 then true
    else hasRepeatGo rest char (count + 1)

/-- `hasRepeat` from internal/access: true when the password has a run of
four or more identical runes. -/
def hasRepeat (password : String) : Bool := hasRepeatGo (strCodes password) 0 0

/-- Loop of `hasSequence`: the Go code compares each rune `c` against
`char + 1` but only assigns `char = c` in the mismatch branch, so inside a
"run" the reference rune never advances. -/
def hasSequenceGo : List Nat → Nat → Nat → Bool
  | [], _, _ => false
  | c :: rest, char, count =>
    if c != char + 1 then hasSequenceGo rest c 1
    else if count + 1 >= 4 then true
    else hasSequenceGo rest char (count + 1)

/-- `hasSequence` from internal/access, transcribed with the Go loop state
as written (the reference rune `char` is not advanced inside a run). -/
def hasSequence (password : String) : Bool := hasSequenceGo (strCodes password) 0 0

/-- `validate.Error`: a map from field name to a list of messages,
modelled as an association list. -/
abbrev ValidationError := List (String × List String)

/-- `checkPasswordRequirements` from internal/access: returns `none` when
the password is accepted, and the field-keyed validation error of the
first failing rule otherwise. -/
def checkPasswordRequirements (user password : String) : Option ValidationError :=
  if goLen password < 8 then
    some [("password", ["must be at least 8 characters"])]
  else if goContains (strCodes password) (strCodes user) then
    some [("password", ["cannot contain user name"])]
  else if goContains (strCodes password) (strCodes "infra") then
    some [("password", ["cannot contain common names such as the name of the service"])]
  else if hasSequence password then
    some [("password", ["must not have common sequences of characters"])]
  else if hasRepeat password then
    some [("password", ["must not have repeating characters"])]
  else
    none

/-! Spec-side reading of the sequence rule, used to compare the code with
the specification's words. -/

/-- `startsAscRun l n`: the first `n` elements of `l` exist and form a run
of consecutive code points (each element is the previous plus one). -/
def startsAscRun : List Nat → Nat → Bool
  | _, 0 => true
  | l, n + 1 =>
    match l with
    | [] => false
    | [_] => n == 0
    | a :: b :: rest => n == 0 || (b == a + 1 && startsAscRun (b :: rest) n)

/-- Modelled from the spec: "no run of ≥4 consecutive-code-point
characters" — some position starts an ascending run of length four. -/
def specHasSequenceRun : List Nat → Bool
  | [] => false
  | l@(_ :: rest) => startsAscRun l 4 || specHasSequenceRun rest

/-! ## Core data model (internal/server/models) -/

/-- `uid.ID`: 64-bit snowflake identifiers, modelled abstractly. -/
abbrev UID := Nat

/-- Symbolic `time.Time` values: only the operations the embedded code
performs are represented. -/
inductive GoTime
  | zero
  | now
  | addDate (t : GoTime) (years months days : Nat)
deriving DecidableEq

/-- Symbolic bcrypt digest: `bcrypt.GenerateFromPassword` on a password. -/
inductive Hash
  | bcrypt (password : String)
deriving DecidableEq

/-- `models.Identity`, restricted to the fields the embedded code reads. -/
structure Identity where
  id : UID
  name : String
deriving DecidableEq

/-- `models.Credential`. -/
structure Credential where
  identityID : UID
  passwordHash : Hash
  oneTimePassword : Bool
deriving DecidableEq

/-- `models.ScopeAllowCreateAccessKey`. -/
def ScopeAllowCreateAccessKey : String := "allow-create-access-key"

/-- `models.ScopePasswordReset`. -/
def ScopePasswordReset : String := "password-reset"

/-- `models.AccessKey`, restricted to the fields the embedded code reads
and writes. -/
structure AccessKey where
  issuedFor : UID
  providerID : UID
  keyID : String
  secret : String
  expiresAt : GoTime
  scopes : List String
deriving DecidableEq

/-- Outcome of a `data.Get…` call: a row, `internal.ErrNotFound`, or any
other database error. -/
inductive DBGet (α : Type)
  | found (a : α)
  | notFound
  | dbError
deriving DecidableEq

/-! ## Credential creation and update (internal/access) -/

/-- Oracle for the database calls made by the credential code: the
existing credential row, and whether each write succeeds. -/
structure CredentialStore where
  getCredential : DBGet Credential
  createOK : Bool
  updateOK : Bool
  updateKeyOK : Bool
deriving DecidableEq

/-- Result of `updateCredential` together with the rows it wrote. -/
inductive UpdateCredResult
  | validationErr (e : ValidationError)
  | otherErr
  | created (cred : Credential)
  | updated (cred : Credential) (updatedKey : Option AccessKey)
deriving DecidableEq

/-- `updateCredential` from internal/access: validates the new password,
hashes it, then either creates a one-time-use credential (admin updating a
user who has none), or updates the stored credential, setting
`OneTimePassword = !isSelf`; on a self update it additionally strips the
`password-reset` scope from the authenticated access key and persists it.
`authKey` is `rCtx.Authenticated.AccessKey`. -/
def updateCredential (store : CredentialStore) (authKey : Option AccessKey)
    (user : Identity) (newPassword : String) (isSelf : Bool) : UpdateCredResult :=
  match checkPasswordRequirements user.name newPassword with
  | some e => .validationErr e
  | none =>
    let hash := Hash.bcrypt newPassword
    match store.getCredential with
    | .notFound =>
      if !isSelf then
        if store.createOK then
          .created { identityID := user.id, passwordHash := hash, oneTimePassword := true }
        else .otherErr
      else .otherErr
    | .dbError => .otherErr
    | .found c =>
      let c' := { c with passwordHash := hash, oneTimePassword := !isSelf }
      if !store.updateOK then .otherErr
      else if isSelf then
        match authKey with
        | some k =>
          let k' := { k with scopes := k.scopes.filter (fun s => s != ScopePasswordReset) }
          if store.updateKeyOK then .updated c' (some k') else .otherErr
        | none => .updated c' none
      else .updated c' none

/-- Result of `CreateCredential`: the returned temporary password and the
credential row it wrote. -/
inductive CreateCredResult
  | authFailed
  | failure
  | success (tmpPassword : String) (cred : Credential)
deriving DecidableEq

/-- `CreateCredential` from internal/access: requires the infra admin
role, generates a temporary password (modelled as the `tmpPassword`
parameter), and stores a credential with `OneTimePassword: true`. -/
def CreateCredential (authorized createOK providerUserOK : Bool)
    (tmpPassword : String) (user : Identity) : CreateCredResult :=
  if !authorized then .authFailed
  else if !createOK then .failure
  else if !providerUserOK then .failure
  else .success tmpPassword
    { identityID := user.id, passwordHash := .bcrypt tmpPassword, oneTimePassword := true }

/-! ## Notification listener (internal/server/data) -/

/-- The channel descriptors of internal/server/data. -/
inductive ListenChannelDescriptor
  | grantsByDestination (orgID destID : UID)
  | destinationCredentialsByDestinationID (orgID destID : UID)
  | destinationCredentialsByID (orgID credID : UID)
  | groupMembership (orgID groupID : UID)
deriving DecidableEq

/-- Effects and result of `Listener.Release`. -/
structure ReleaseResult where
  unlistenIssued : Bool
  connReturned : Bool
  failed : Bool
deriving DecidableEq

/-- `Listener.Release`: executes `UNLISTEN *`, then returns the dedicated
connection to the pool.  Both steps run unconditionally; their errors are
collected in `errs` and reported together as a single error. -/
def listenerRelease (unlistenErr connErr : Bool) : ReleaseResult :=
  let errs : List String :=
    (if unlistenErr then ["unlisten error"] else []) ++
      (if connErr then ["release conn error"] else [])
  { unlistenIssued := true, connReturned := true, failed := !errs.isEmpty }

/-! ## Destination-access long-poll (internal/server, `ListDestinationAccess`) -/

/-- `DestinationAccess` rows: one item per (user, privilege, resource). -/
structure DestinationAccess where
  userID : UID
  userSSHLoginName : String
  privilege : String
  resource : String
deriving DecidableEq

/-- `api.LastUpdateIndex` (an `int64`; the Go zero value is index 0). -/
structure LastUpdateIndex where
  index : Int
deriving DecidableEq

/-- `ListDestinationAccessResponse`. -/
structure ListDestinationAccessResponse where
  items : List DestinationAccess
  lastUpdateIndex : LastUpdateIndex
deriving DecidableEq

/-- Grant subjects are tagged identity or group ids. -/
inductive SubjectKind
  | identity
  | group
deriving DecidableEq

/-- `models.Subject`. -/
structure Subject where
  kind : SubjectKind
  id : UID
deriving DecidableEq

/-- `models.Grant`, restricted to the field the long-poll handler reads
(the subject, used to pick group-membership channels). -/
structure Grant where
  subject : Subject
deriving DecidableEq

/-- `models.Destination`, restricted to the fields the long-poll handler
reads. -/
structure Destination where
  id : UID
  name : String
deriving DecidableEq

/-- Outcome of `Listener.WaitForNotification(ctx)`: a notification
arrived, the request context's deadline fired, or the context was
cancelled (any other error). -/
inductive WaitOutcome
  | notified
  | deadlineExceeded
  | canceled
deriving DecidableEq

/-- Oracle for the database reads and effects of one `ListDestinationAccess`
request: what each call would return against the current database state.
`snap1`/`snap2` give the `(items, maxIndex)` pair computed by
`listDestinationAccessWithMaxUpdateIndex` (in a fresh read-only
REPEATABLE READ transaction) before and after waiting; `none` is a query
error. -/
structure LongPollEnv where
  authorized : Bool
  reqTxItems : DBGet (List DestinationAccess)
  destination : DBGet Destination
  grants : DBGet (List Grant)
  rollbackOK : Bool
  listenOK : Bool
  snap1 : Option (List DestinationAccess × Int)
  wait : WaitOutcome
  snap2 : Option (List DestinationAccess × Int)
  releaseErr : Bool
deriving DecidableEq

/-- The handler's result as seen by the HTTP layer: a response, a response
accompanied by the `internal.ErrNotModified` sentinel (HTTP 304), or an
error. -/
inductive HandlerOutcome
  | ok (resp : ListDestinationAccessResponse)
  | notModified (resp : ListDestinationAccessResponse)
  | err
deriving DecidableEq

/-- Record of the deferred listener release: the context used is detached
(`context.Background()`) and carries its own deadline (`time.Minute`). -/
structure ReleaseCall where
  detached : Bool
  timeoutSeconds : Nat
deriving DecidableEq

/-- Observable trace of one `ListDestinationAccess` request: the outcome,
whether `WaitForNotification` was invoked, the channels registered with
the listener, the deferred release call (`none` when no listener was
registered), and whether a release failure was logged. -/
structure LongPollTrace where
  outcome : HandlerOutcome
  waited : Bool
  channels : List ListenChannelDescriptor
  release : Option ReleaseCall
  releaseFailureLogged : Bool
deriving DecidableEq

/-- `destinationAccessToAPI`: copies each data row into the response
type, field by field. -/
def destinationAccessToAPI (a : List DestinationAccess) : List DestinationAccess :=
  a.map (fun item =>
    { userID := item.userID, userSSHLoginName := item.userSSHLoginName,
      privilege := item.privilege, resource := item.resource })

/-- `listDestinationAccessWithMaxUpdateIndex`: in a fresh read-only
REPEATABLE READ transaction, reads the access list and the max update
index and packages them as a response. -/
def listDestinationAccessWithMaxUpdateIndex
    (snap : Option (List DestinationAccess × Int)) : Option ListDestinationAccessResponse :=
  match snap with
  | none => none
  | some (items, maxUpdateIndex) =>
    some { items := destinationAccessToAPI items,
           lastUpdateIndex := { index := maxUpdateIndex } }

/-- The channel list built by the handler: one `grantsByDest` descriptor
for the destination, plus one `group_membership` descriptor per grant
whose subject is a group, in grant order. -/
def listenChannels (orgID destID : UID) (grants : List Grant) : List ListenChannelDescriptor :=
  ListenChannelDescriptor.grantsByDestination orgID destID ::
    (grants.filter (fun g => g.subject.kind == SubjectKind.group)).map
      (fun g => ListenChannelDescriptor.groupMembership orgID g.subject.id)

/-- A trace that errored before any listener existed. -/
def earlyErrTrace : LongPollTrace :=
  { outcome := .err, waited := false, channels := [], release := none,
    releaseFailureLogged := false }

/-- The part of the handler that runs after the listener is registered:
compute the first snapshot; return it immediately when its index exceeds
the client's; otherwise wait, returning the unchanged snapshot with the
not-modified sentinel on deadline, an error on any other wait error, and
the recomputed snapshot on a notification.  Also reports whether the
handler blocked on `WaitForNotification`. -/
def blockingPhase (snap1 : Option (List DestinationAccess × Int)) (wait : WaitOutcome)
    (snap2 : Option (List DestinationAccess × Int)) (lastUpdateIndex : Int) :
    HandlerOutcome × Bool :=
  match listDestinationAccessWithMaxUpdateIndex snap1 with
  | none => (.err, false)
  | some result =>
    if result.lastUpdateIndex.index > lastUpdateIndex then (.ok result, false)
    else
      match wait with
      | .deadlineExceeded => (.notModified result, true)
      | .canceled => (.err, true)
      | .notified =>
        match listDestinationAccessWithMaxUpdateIndex snap2 with
        | none => (.err, true)
        | some result2 => (.ok result2, true)

/-- `ListDestinationAccess` from internal/server: authorize; when
`lastUpdateIndex == 0` answer from the request transaction immediately
(the response's `LastUpdateIndex` is its zero value); otherwise resolve
the destination and its grants, roll back the request transaction,
register a listener, and run the blocking phase, releasing the listener
through a deferred call that uses a detached context with a one-minute
deadline and only logs release failures. -/
def ListDestinationAccess (env : LongPollEnv) (orgID : UID) (lastUpdateIndex : Int) :
    LongPollTrace :=
  if !env.authorized then earlyErrTrace
  else if lastUpdateIndex == 0 then
    match env.reqTxItems with
    | .found items =>
      { outcome := .ok { items := destinationAccessToAPI items,
                         lastUpdateIndex := { index := 0 } },
        waited := false, channels := [], release := none, releaseFailureLogged := false }
    | _ => earlyErrTrace
  else
    match env.destination with
    | .notFound => earlyErrTrace
    | .dbError => earlyErrTrace
    | .found dest =>
      match env.grants with
      | .notFound => earlyErrTrace
      | .dbError => earlyErrTrace
      | .found grants =>
        if !env.rollbackOK then earlyErrTrace
        else
          let channels := listenChannels orgID dest.id grants
          if !env.listenOK then
            { outcome := .err, waited := false, channels := channels, release := none,
              releaseFailureLogged := false }
          else
            let phase := blockingPhase env.snap1 env.wait env.snap2 lastUpdateIndex
            { outcome := phase.1, waited := phase.2, channels := channels,
              release := some { detached := true, timeoutSeconds := 60 },
              releaseFailureLogged := env.releaseErr }

/-! ## Bootstrap provider reconciliation (internal/registry, `importProviders`) -/

/-- `ConfigProvider` from the registry configuration.  `cleanupDomain`
rewrites only the `domain` string (whitespace trimming, `-admin.okta.com`
and scheme removal); the reconciliation below is independent of that
rewriting, so the embedding takes already-cleaned domains. -/
structure ConfigProvider where
  kind : String
  domain : String
  clientID : String
  clientSecret : String
deriving DecidableEq

/-- A `models.Provider` row, with its gorm soft-delete flag. -/
structure Provider where
  id : UID
  kind : String
  domain : String
  clientID : String
  clientSecret : String
  deleted : Bool
deriving DecidableEq

/-- `validate.Struct` on `ConfigProvider`: every field carries a
`validate:"required"` tag. -/
def validProvider (p : ConfigProvider) : Bool :=
  !(p.kind == "") && !(p.domain == "") && !(p.clientID == "") && !(p.clientSecret == "")

/-- Modelled from the spec: `data.CreateOrUpdateProvider` is not under
src/; the spec says providers are reconciled by "upsert each".  The
embedding matches an existing live row of the same kind, updating it in
place, and otherwise inserts a new row under the fresh id. -/
def createOrUpdateProvider (db : List Provider) (fresh : UID) (p : ConfigProvider) :
    List Provider × Provider :=
  match db.find? (fun q => q.kind == p.kind && !q.deleted) with
  | some existing =>
    let updated := { existing with
      domain := p.domain, clientID := p.clientID, clientSecret := p.clientSecret }
    (db.map (fun q => if q.id == existing.id then updated else q), updated)
  | none =>
    let created : Provider :=
      { id := fresh, kind := p.kind, domain := p.domain,
        clientID := p.clientID, clientSecret := p.clientSecret, deleted := false }
    (db ++ [created], created)

/-- Modelled from the spec: `data.DeleteProviders` is not under src/; the
spec says it soft-deletes the rows matched by the selector.  The selector
built by `importProviders` is `Not(toKeep)`, i.e. every provider row whose
id is not in the kept set — with no exclusion by kind. -/
def deleteProvidersNotKept (db : List Provider) (toKeep : List UID) : List Provider :=
  db.map (fun q => if toKeep.contains q.id then q else { q with deleted := true })

/-- Upsert loop of `importProviders`: validates each configured provider,
upserts it, and collects the resulting row ids in `toKeep` (in order).
Fresh insert ids are drawn from the counter `nextID`. -/
def importProvidersLoop (db : List Provider) (nextID : UID) (toKeep : List UID) :
    List ConfigProvider → Option (List Provider × List UID)
  | [] => some (db, toKeep)
  | p :: rest =>
    if !validProvider p then none
    else
      let r := createOrUpdateProvider db nextID p
      importProvidersLoop r.1 (nextID + 1) (toKeep ++ [r.2.id]) rest

/-- `importProviders` from internal/registry: upsert every configured
provider, then soft-delete every provider whose id is not in the kept
set. -/
def importProviders (db : List Provider) (nextID : UID) (cfg : List ConfigProvider) :
    Option (List Provider) :=
  match importProvidersLoop db nextID [] cfg with
  | none => none
  | some (db1, toKeep) => some (deleteProvidersNotKept db1 toKeep)

/-! ## Password-reset request (internal/server, `RequestPasswordReset`) -/

/-- Oracle for the calls made by `RequestPasswordReset`: the rate-limiter
verdict, the identity lookup by email, the credential lookup, and whether
token creation and email delivery succeed. -/
structure ResetEnv where
  rateLimitOK : Bool
  identity : DBGet Identity
  credential : DBGet Credential
  tokenOK : Bool
  emailOK : Bool
deriving DecidableEq

/-- HTTP-visible status of a handler that returns `*api.EmptyResponse`:
a nil error renders 204, a non-nil error renders an error response. -/
inductive APIStatus
  | ok204
  | errResp
deriving DecidableEq

/-- Trace of one password-reset request: the response status, and whether
`SendPasswordResetEmail` was invoked. -/
structure ResetTrace where
  status : APIStatus
  emailSent : Bool
deriving DecidableEq

/-- `RequestPasswordReset` from internal/server: rate-limit by email;
silently succeed when no identity matches the email; fail when the
identity has no stored credential; otherwise create a reset token and
send the reset email, propagating any email error. -/
def RequestPasswordReset (env : ResetEnv) : ResetTrace :=
  if !env.rateLimitOK then { status := .errResp, emailSent := false }
  else
    match env.identity with
    | .notFound => { status := .ok204, emailSent := false }
    | .dbError => { status := .errResp, emailSent := false }
    | .found _user =>
      match env.credential with
      | .notFound => { status := .errResp, emailSent := false }
      | .dbError => { status := .errResp, emailSent := false }
      | .found _cred =>
        if !env.tokenOK then { status := .errResp, emailSent := false }
        else if env.emailOK then { status := .ok204, emailSent := true }
        else { status := .errResp, emailSent := true }

/-! ## Bootstrap access-key loader (internal/server, `loadAccessKey`) -/

/-- `strings.Cut(s, ".")` on code points: split at the first dot,
returning `none` when no dot occurs. -/
def goCutDot : List Char → Option (List Char × List Char)
  | [] => none
  | c :: rest =>
    if c == '.' then some ([], rest)
    else (goCutDot rest).map (fun p => (c :: p.1, p.2))

/-- `strings.Cut(s, ".")` on strings. -/
def goCut (s : String) : Option (String × String) :=
  (goCutDot s.data).map (fun p => (String.mk p.1, String.mk p.2))

/-- Oracle for the calls made by `loadAccessKey`: secret resolution
(`secrets.GetSecret`), the access-key lookup by key id, the infra
provider's id, and whether each database write succeeds. -/
structure AccessKeyStore where
  getSecret : String → Option String
  getAccessKey : String → DBGet AccessKey
  infraProviderID : UID
  createOK : Bool
  providerUserOK : Bool
  updateOK : Bool

/-- Result of `loadAccessKey`, together with the row it wrote. -/
inductive LoadAccessKeyResult
  | noKey
  | resolveErr
  | invalidFormat
  | dbErr
  | created (k : AccessKey)
  | assignedToOther
  | updated (k : AccessKey)
deriving DecidableEq

/-- `loadAccessKey` from internal/server: skip empty keys; resolve the
configured value through the secret providers; split it as
`keyid.secret` at the first dot (else the invalid-format error); when no
key with that key id exists, create one expiring ten years from now with
the allow-create-access-key scope; when one exists for another identity,
fail; otherwise update its secret. -/
def loadAccessKey (store : AccessKeyStore) (identity : Identity) (key : String) :
    LoadAccessKeyResult :=
  if key == "" then .noKey
  else
    match store.getSecret key with
    | none => .resolveErr
    | some resolved =>
      match goCut resolved with
      | none => .invalidFormat
      | some (keyID, secret) =>
        match store.getAccessKey keyID with
        | .notFound =>
          if store.createOK && store.providerUserOK then
            .created { issuedFor := identity.id, providerID := store.infraProviderID,
                       keyID := keyID, secret := secret,
                       expiresAt := .addDate .now 10 0 0,
                       scopes := [ScopeAllowCreateAccessKey] }
          else .dbErr
        | .dbError => .dbErr
        | .found existing =>
          if existing.issuedFor != identity.id then .assignedToOther
          else if store.updateOK then .updated { existing with secret := secret }
          else .dbErr

/-! ## Secret-provider loading (internal/server, `importSecrets`) -/

/-- `GenericConfig` (env / plaintext / file base64 options). -/
structure GenericConfig where
  base64 : Bool
  base64URLEncoded : Bool
  base64Raw : Bool
deriving DecidableEq

/-- `FileConfig`. -/
structure FileConfig where
  generic : GenericConfig
  path : String
deriving DecidableEq

/-- `KubernetesConfig`. -/
structure KubernetesConfig where
  ns : String
deriving DecidableEq

/-- `VaultConfig`. -/
structure VaultConfig where
  transitMount : String
  secretMount : String
  token : String
  ns : String
  address : String
deriving DecidableEq

/-- `AWSConfig`. -/
structure AWSConfig where
  endpoint : String
  region : String
  accessKeyID : String
  secretAccessKey : String
deriving DecidableEq

/-- `AWSSSMConfig`. -/
structure AWSSSMConfig where
  aws : AWSConfig
  keyID : String
deriving DecidableEq

/-- `AWSSecretsManagerConfig`. -/
structure AWSSecretsManagerConfig where
  aws : AWSConfig
deriving DecidableEq

/-- The dynamically-typed `Config interface{}` field of a
`SecretProvider` entry: `PrepareForDecode` fills it with the record type
matching the declared kind, but `loadSecretConfig` re-checks with a type
assertion, so the embedding keeps the tag. -/
inductive SecretConfigVal
  | vault (c : VaultConfig)
  | awsssm (c : AWSSSMConfig)
  | awssecretsmanager (c : AWSSecretsManagerConfig)
  | kubernetes (c : KubernetesConfig)
  | generic (c : GenericConfig)
  | file (c : FileConfig)
deriving DecidableEq

/-- A configured secret-provider entry. -/
structure SecretProvider where
  kind : String
  name : String
  config : SecretConfigVal
deriving DecidableEq

/-- A constructed storage backend registered in the registry (the
`secrets.SecretStorage` value produced by the corresponding
`New…FromConfig` constructor). -/
inductive SecretStorage
  | vault (c : VaultConfig)
  | awsssm (c : AWSSSMConfig)
  | awssecretsmanager (c : AWSSecretsManagerConfig)
  | kubernetes (c : KubernetesConfig)
  | env (c : GenericConfig)
  | file (c : FileConfig)
  | plaintext (c : GenericConfig)
deriving DecidableEq

/-- The storage registry.  The Go map is keyed by name with unique keys;
the embedding keeps entries in registration order. -/
abbrev StorageMap := List (String × SecretStorage)

/-- Key membership in the registry. -/
def hasKey (m : StorageMap) (k : String) : Bool :=
  m.any (fun e => e.1 == k)

/-- Registry lookup. -/
def getKey (m : StorageMap) (k : String) : Option SecretStorage :=
  (m.find? (fun e => e.1 == k)).map (fun e => e.2)

/-- Modelled from the spec: `secrets.NewVaultConfig` lives in the external
secrets module; per the `VaultConfig` field comments the mounts default to
`/transit` and `/secret`. -/
def newVaultConfig : VaultConfig :=
  { transitMount := "/transit", secretMount := "/secret", token := "", ns := "", address := "" }

/-- Modelled from the spec: `secrets.NewKubernetesConfig` lives in the
external secrets module; the embedding uses an empty default namespace. -/
def newKubernetesConfig : KubernetesConfig :=
  { ns := "" }

/-- Oracle for the external effects of secret loading: `secrets.GetSecret`
resolution against the registry built so far, fallibility of the external
constructors, and whether `KUBERNETES_SERVICE_HOST` is set. -/
structure SecretsEnv where
  getSecret : String → Option String
  vaultOK : VaultConfig → Bool
  ssmOK : AWSSSMConfig → Bool
  smOK : AWSSecretsManagerConfig → Bool
  k8sOK : KubernetesConfig → Bool
  k8sEnvSet : Bool

/-- Errors of secret loading. -/
inductive SecretsErr
  | duplicateName (name : String)
  | configTypeMismatch
  | getSecretErr
  | buildErr
  | unknownKind (kind : String)
deriving DecidableEq

/-- The effective registry name of an entry: the declared name, defaulting
to the kind when empty. -/
def secretName (secret : SecretProvider) : String :=
  if secret.name == "" then secret.kind else secret.name

/-- `baseSecretStorageKinds`. -/
def baseSecretStorageKinds : List String := ["env", "file", "plaintext", "kubernetes"]

/-- `isABaseSecretStorageKind`. -/
def isABaseSecretStorageKind (s : String) : Bool :=
  baseSecretStorageKinds.contains s

/-- The vault config built by `loadSecretConfig`: defaults from
`NewVaultConfig`, non-empty mounts and address copied over, token and
namespace always copied. -/
def buildVaultConfig (cfg : VaultConfig) (token : String) : VaultConfig :=
  let v0 := newVaultConfig
  let v1 := if cfg.transitMount.length > 0 then { v0 with transitMount := cfg.transitMount } else v0
  let v2 := if cfg.secretMount.length > 0 then { v1 with secretMount := cfg.secretMount } else v1
  let v3 := if cfg.address.length > 0 then { v2 with address := cfg.address } else v2
  { v3 with token := token, ns := cfg.ns }

/-- `loadSecretConfig` from `importSecrets`: reject duplicate names,
dispatch on the declared kind, check the config's dynamic type, resolve
credential fields through `secrets.GetSecret`, construct the backend, and
register it under the effective name.  Unknown kinds are an error. -/
def loadSecretConfig (env : SecretsEnv) (storage : StorageMap) (secret : SecretProvider) :
    Except SecretsErr StorageMap :=
  let name := secretName secret
  if hasKey storage name then .error (.duplicateName name)
  else if secret.kind == "vault" then
    match secret.config with
    | .vault cfg =>
      match env.getSecret cfg.token with
      | none => .error .getSecretErr
      | some token =>
        let vcfg := buildVaultConfig cfg token
        if env.vaultOK vcfg then .ok (storage ++ [(name, .vault vcfg)])
        else .error .buildErr
    | _ => .error .configTypeMismatch
  else if secret.kind == "awsssm" then
    match secret.config with
    | .awsssm cfg =>
      match env.getSecret cfg.aws.accessKeyID with
      | none => .error .getSecretErr
      | some akid =>
        match env.getSecret cfg.aws.secretAccessKey with
        | none => .error .getSecretErr
        | some sak =>
          let ssmcfg : AWSSSMConfig :=
            { aws := { endpoint := cfg.aws.endpoint, region := cfg.aws.region,
                       accessKeyID := akid, secretAccessKey := sak },
              keyID := cfg.keyID }
          if env.ssmOK ssmcfg then .ok (storage ++ [(name, .awsssm ssmcfg)])
          else .error .buildErr
    | _ => .error .configTypeMismatch
  else if secret.kind == "awssecretsmanager" then
    match secret.config with
    | .awssecretsmanager cfg =>
      match env.getSecret cfg.aws.accessKeyID with
      | none => .error .getSecretErr
      | some akid =>
        match env.getSecret cfg.aws.secretAccessKey with
        | none => .error .getSecretErr
        | some sak =>
          let smCfg : AWSSecretsManagerConfig :=
            { aws := { endpoint := cfg.aws.endpoint, region := cfg.aws.region,
                       accessKeyID := akid, secretAccessKey := sak } }
          if env.smOK smCfg then .ok (storage ++ [(name, .awssecretsmanager smCfg)])
          else .error .buildErr
    | _ => .error .configTypeMismatch
  else if secret.kind == "kubernetes" then
    match secret.config with
    | .kubernetes cfg =>
      let kcfg := if cfg.ns.length > 0 then { newKubernetesConfig with ns := cfg.ns }
                  else newKubernetesConfig
      if env.k8sOK kcfg then .ok (storage ++ [(name, .kubernetes kcfg)])
      else .error .buildErr
    | _ => .error .configTypeMismatch
  else if secret.kind == "env" then
    match secret.config with
    | .generic cfg => .ok (storage ++ [(name, .env cfg)])
    | _ => .error .configTypeMismatch
  else if secret.kind == "file" then
    match secret.config with
    | .file cfg => .ok (storage ++ [(name, .file cfg)])
    | _ => .error .configTypeMismatch
  else if secret.kind == "plaintext" || secret.kind == "" then
    match secret.config with
    | .generic cfg => .ok (storage ++ [(name, .plaintext cfg)])
    | _ => .error .configTypeMismatch
  else .error (.unknownKind secret.kind)

/-- One default-installation block of `loadDefaultSecretConfig`:
register `v` under `name` when no provider of that name is present. -/
def ensureDefault (storage : StorageMap) (name : String) (v : SecretStorage) : StorageMap :=
  if hasKey storage name then storage else storage ++ [(name, v)]

/-- `loadDefaultSecretConfig`: installs defaults for `env`, `file` and
`plaintext` when absent, and a default `kubernetes` provider when absent
and `KUBERNETES_SERVICE_HOST` is set. -/
def loadDefaultSecretConfig (env : SecretsEnv) (storage : StorageMap) :
    Except SecretsErr StorageMap :=
  let s1 := ensureDefault storage "env"
    (.env { base64 := false, base64URLEncoded := false, base64Raw := false })
  let s2 := ensureDefault s1 "file"
    (.file { generic := { base64 := false, base64URLEncoded := false, base64Raw := false }, path := "" })
  let s3 := ensureDefault s2 "plaintext"
    (.plaintext { base64 := false, base64URLEncoded := false, base64Raw := false })
  if hasKey s3 "kubernetes" then .ok s3
  else if env.k8sEnvSet then
    if env.k8sOK newKubernetesConfig then .ok (s3 ++ [("kubernetes", .kubernetes newKubernetesConfig)])
    else .error .buildErr
  else .ok s3

/-- One pass of `importSecrets`: process, in order, exactly the entries
whose base-kind status matches `baseOnly`, skipping the rest. -/
def importSecretsPass (env : SecretsEnv) (baseOnly : Bool) (storage : StorageMap) :
    List SecretProvider → Except SecretsErr StorageMap
  | [] => .ok storage
  | s :: rest =>
    if isABaseSecretStorageKind s.kind != baseOnly then
      importSecretsPass env baseOnly storage rest
    else
      match loadSecretConfig env storage s with
      | .error e => .error e
      | .ok st1 => importSecretsPass env baseOnly st1 rest

/-- `importSecrets` from internal/server: load all base-kind entries,
install the defaults, then load the remaining entries (which may resolve
secret references against the base providers). -/
def importSecrets (env : SecretsEnv) (cfg : List SecretProvider) (storage : StorageMap) :
    Except SecretsErr StorageMap :=
  match importSecretsPass env true storage cfg with
  | .error e => .error e
  | .ok st1 =>
    match loadDefaultSecretConfig env st1 with
    | .error e => .error e
    | .ok st2 => importSecretsPass env false st2 cfg

/-! ## Helper definitions used by the theorems -/

/-- Sequential loading of a list of entries, with no skipping: the two
passes of `importSecrets` are proved equal to this function on the
filtered configuration. -/
def loadAll (env : SecretsEnv) (storage : StorageMap) :
    List SecretProvider → Except SecretsErr StorageMap
  | [] => .ok storage
  | s :: rest =>
    match loadSecretConfig env storage s with
    | .error e => .error e
    | .ok st1 => loadAll env st1 rest

/-- The kinds `loadSecretConfig` accepts (the empty kind is treated as
plaintext). -/
def knownSecretKinds : List String :=
  ["vault", "awsssm", "awssecretsmanager", "kubernetes", "env", "file", "plaintext", ""]

/-- A sample destination-access row for concrete runs. -/
def sampleAccess : DestinationAccess :=
  { userID := 7, userSSHLoginName := "alice", privilege := "view", resource := "cluster" }

/-- A sample group grant for concrete runs. -/
def sampleGrant : Grant := { subject := { kind := .group, id := 9 } }

/-- A concrete database oracle for the long-poll handler: the current
snapshot is `([sampleAccess], 7)`. -/
def sampleLongPollEnv : LongPollEnv :=
  { authorized := true
    reqTxItems := .found [sampleAccess]
    destination := .found { id := 4, name := "cluster" }
    grants := .found [sampleGrant]
    rollbackOK := true
    listenOK := true
    snap1 := some ([sampleAccess], 7)
    wait := .notified
    snap2 := some ([sampleAccess], 9)
    releaseErr := false }

/-- The initial provider table of the C3 scenario: okta, azure and the
built-in infra provider, all live. -/
def scenarioDB : List Provider :=
  [ { id := 1, kind := "okta", domain := "okta.example.com", clientID := "c1",
      clientSecret := "s1", deleted := false },
    { id := 2, kind := "azure", domain := "azure.example.com", clientID := "c2",
      clientSecret := "s2", deleted := false },
    { id := 3, kind := "infra", domain := "infra.example.com", clientID := "c3",
      clientSecret := "s3", deleted := false } ]

/-- The configured providers of the C3 scenario: okta and google. -/
def scenarioCfg : List ConfigProvider :=
  [ { kind := "okta", domain := "okta.example.com", clientID := "c1", clientSecret := "s1" },
    { kind := "google", domain := "google.example.com", clientID := "c4", clientSecret := "s4" } ]

/-- A concrete secrets-loading oracle for witnesses. -/
def sampleSecretsEnv : SecretsEnv :=
  { getSecret := fun s => some s
    vaultOK := fun _ => true
    ssmOK := fun _ => true
    smOK := fun _ => true
    k8sOK := fun _ => true
    k8sEnvSet := true }

/-- A concrete access-key-loading oracle for witnesses: secrets resolve
to themselves and no key id is taken. -/
def sampleAccessKeyStore : AccessKeyStore :=
  { getSecret := fun s => some s
    getAccessKey := fun _ => .notFound
    infraProviderID := 42
    createOK := true
    providerUserOK := true
    updateOK := true }

/-! # Theorems -/

/-! ## C7: password validation rules -/

/-- C7 (code slip in the sequence rule): `checkPasswordRequirements`
accepts the password "abcdefgh" although it is an ascending run of eight
consecutive code points, and rejects "zabbbqrw" with the
common-sequences message although it contains no run of four consecutive
code points and no run of four identical characters.  The loop of
`hasSequence` never advances its reference rune inside a run, so it
flags `x` followed by three copies of `x+1` instead of ascending runs. -/
theorem c7_password_sequence_rule_bug :
    checkPasswordRequirements "admin@example.com" "abcdefgh" = none ∧
    specHasSequenceRun (strCodes "abcdefgh") = true ∧
    checkPasswordRequirements "admin@example.com" "zabbbqrw" =
      some [("password", ["must not have common sequences of characters"])] ∧
    specHasSequenceRun (strCodes "zabbbqrw") = false ∧
    hasRepeat "zabbbqrw" = false := by decide

/-! ## C9 and C10: credential update effects -/

/-- C9: a successful self password change strips exactly the
`password-reset` scope from the authenticated access key (all other
scopes are preserved, in order), while a successful update performed on
another user writes no access key at all. -/
theorem c9_self_change_strips_reset_scope :
    (∀ store user pwd (k : AccessKey) c k',
       updateCredential store (some k) user pwd true = .updated c (some k') →
       k' = { k with scopes := k.scopes.filter (fun s => s != ScopePasswordReset) } ∧
       ScopePasswordReset ∉ k'.scopes ∧
       ∀ s, s ∈ k.scopes → s ≠ ScopePasswordReset → s ∈ k'.scopes) ∧
    (∀ store authKey user pwd c okey,
       updateCredential store authKey user pwd false = .updated c okey →
       okey = none) := by
  constructor
  · intro store user pwd k c k' h
    unfold updateCredential at h
    cases hcp : checkPasswordRequirements user.name pwd with
    | some e => rw [hcp] at h; simp at h
    | none =>
      rw [hcp] at h
      cases hg : store.getCredential with
      | notFound => rw [hg] at h; simp at h
      | dbError => rw [hg] at h; simp at h
      | found c0 =>
        rw [hg] at h
        cases hu : store.updateOK with
        | false => simp [hu] at h
        | true =>
          simp only [hu] at h
          cases hk : store.updateKeyOK with
          | false => simp [hk] at h
          | true =>
            simp [hk] at h
            obtain ⟨-, hkey⟩ := h
            subst hkey
            refine ⟨rfl, ?_, ?_⟩
            · simp [List.mem_filter]
            · intro s hs hne
              simp [List.mem_filter, hs, bne_iff_ne, hne]
  · intro store authKey user pwd c okey h
    unfold updateCredential at h
    cases hcp : checkPasswordRequirements user.name pwd with
    | some e => rw [hcp] at h; simp at h
    | none =>
      rw [hcp] at h
      cases hg : store.getCredential with
      | notFound =>
        rw [hg] at h
        cases hcr : store.createOK <;> simp [hcr] at h
      | dbError => rw [hg] at h; simp at h
      | found c0 =>
        rw [hg] at h
        cases hu : store.updateOK <;> simp [hu] at h
        exact h.2.symm

/-- C10: every credential row written by a successful update or creation
carries `OneTimePassword = !isSelf`: admin-created and admin-updated
credentials are one-time-use, a self-service change clears the flag, and
the create-on-missing path only happens for non-self updates. -/
theorem c10_one_time_password_flag :
    (∀ store authKey user pwd isSelf c okey,
       updateCredential store authKey user pwd isSelf = .updated c okey →
       c.oneTimePassword = !isSelf) ∧
    (∀ store authKey user pwd isSelf c,
       updateCredential store authKey user pwd isSelf = .created c →
       c.oneTimePassword = true ∧ isSelf = false) ∧
    (∀ authorized createOK providerUserOK tmp user tmp2 cred,
       CreateCredential authorized createOK providerUserOK tmp user = .success tmp2 cred →
       cred.oneTimePassword = true) := by
  refine ⟨?_, ?_, ?_⟩
  · intro store authKey user pwd isSelf c okey h
    unfold updateCredential at h
    cases hcp : checkPasswordRequirements user.name pwd with
    | some e => rw [hcp] at h; simp at h
    | none =>
      rw [hcp] at h
      cases hg : store.getCredential with
      | notFound =>
        rw [hg] at h
        cases isSelf <;> simp at h
        cases hcr : store.createOK <;> simp [hcr] at h
      | dbError => rw [hg] at h; simp at h
      | found c0 =>
        rw [hg] at h
        cases hu : store.updateOK <;> simp [hu] at h
        cases isSelf with
        | false =>
          simp at h
          rw [← h.1]; rfl
        | true =>
          simp only [] at h
          cases authKey with
          | none =>
            simp at h
            rw [← h.1]; rfl
          | some k =>
            simp only [] at h
            cases hk : store.updateKeyOK <;> simp [hk] at h
            rw [← h.1]; rfl
  · intro store authKey user pwd isSelf c h
    unfold updateCredential at h
    cases hcp : checkPasswordRequirements user.name pwd with
    | some e => rw [hcp] at h; simp at h
    | none =>
      rw [hcp] at h
      cases hg : store.getCredential with
      | notFound =>
        rw [hg] at h
        cases isSelf with
        | true => simp at h
        | false =>
          cases hcr : store.createOK <;> simp [hcr] at h
          exact ⟨by rw [← h], rfl⟩
      | dbError => rw [hg] at h; simp at h
      | found c0 =>
        rw [hg] at h
        cases hu : store.updateOK <;> simp [hu] at h
        cases isSelf <;> simp at h
        cases authKey <;> simp at h
        cases hk : store.updateKeyOK <;> simp [hk] at h
  · intro authorized createOK providerUserOK tmp user tmp2 cred h
    unfold CreateCredential at h
    cases authorized <;> simp at h
    cases createOK <;> simp at h
    cases providerUserOK <;> simp at h
    rw [← h.2]

/-- Witness for C9 at a concrete store, user and access key. -/
theorem c9_witness :
    (updateCredential
        { getCredential := .found
            { identityID := 1, passwordHash := .bcrypt "old", oneTimePassword := true },
          createOK := true, updateOK := true, updateKeyOK := true }
        (some { issuedFor := 1, providerID := 42, keyID := "kid", secret := "sec",
                expiresAt := .now, scopes := [ScopeAllowCreateAccessKey, ScopePasswordReset] })
        { id := 1, name := "bruce@example.com" } "newPassword" true =
      .updated
        { identityID := 1, passwordHash := .bcrypt "newPassword", oneTimePassword := false }
        (some { issuedFor := 1, providerID := 42, keyID := "kid", secret := "sec",
                expiresAt := .now, scopes := [ScopeAllowCreateAccessKey] })) ∧
    ScopePasswordReset ∉ [ScopeAllowCreateAccessKey] := by
  refine ⟨by decide, ?_⟩
  exact (c9_self_change_strips_reset_scope.1
    { getCredential := .found
        { identityID := 1, passwordHash := .bcrypt "old", oneTimePassword := true },
      createOK := true, updateOK := true, updateKeyOK := true }
    { id := 1, name := "bruce@example.com" } "newPassword"
    { issuedFor := 1, providerID := 42, keyID := "kid", secret := "sec",
      expiresAt := .now, scopes := [ScopeAllowCreateAccessKey, ScopePasswordReset] }
    { identityID := 1, passwordHash := .bcrypt "newPassword", oneTimePassword := false }
    { issuedFor := 1, providerID := 42, keyID := "kid", secret := "sec",
      expiresAt := .now, scopes := [ScopeAllowCreateAccessKey] }
    (by decide)).2.1

/-- Witness for C10 at a concrete admin update and a concrete creation. -/
theorem c10_witness :
    (updateCredential
        { getCredential := .found
            { identityID := 1, passwordHash := .bcrypt "old", oneTimePassword := false },
          createOK := true, updateOK := true, updateKeyOK := true }
        none { id := 1, name := "bruce@example.com" } "newPassword" false =
      .updated
        { identityID := 1, passwordHash := .bcrypt "newPassword", oneTimePassword := true }
        none) ∧
    (Credential.oneTimePassword
      { identityID := 1, passwordHash := .bcrypt "newPassword", oneTimePassword := true } = !false) ∧
    (CreateCredential true true true "temp1234" { id := 2, name := "dave@example.com" } =
      .success "temp1234"
        { identityID := 2, passwordHash := .bcrypt "temp1234", oneTimePassword := true }) ∧
    (Credential.oneTimePassword
      { identityID := 2, passwordHash := .bcrypt "temp1234", oneTimePassword := true } = true) := by
  refine ⟨by decide, ?_, by decide, ?_⟩
  · exact c10_one_time_password_flag.1
      { getCredential := .found
          { identityID := 1, passwordHash := .bcrypt "old", oneTimePassword := false },
        createOK := true, updateOK := true, updateKeyOK := true }
      none { id := 1, name := "bruce@example.com" } "newPassword" false
      { identityID := 1, passwordHash := .bcrypt "newPassword", oneTimePassword := true }
      none (by decide)
  · exact c10_one_time_password_flag.2.2 true true true "temp1234"
      { id := 2, name := "dave@example.com" } "temp1234"
      { identityID := 2, passwordHash := .bcrypt "temp1234", oneTimePassword := true }
      (by decide)

/-! ## C1, C2, C5: destination-access long-poll -/

/-- C1 counterexample: with the server's current `(items, max index)`
snapshot being `([sampleAccess], 7)`, the `lastUpdateIndex = 0` call
returns immediately, but the response's `LastUpdateIndex` is 0, not the
server's current maximum update index 7. -/
theorem c1_counterexample :
    (ListDestinationAccess sampleLongPollEnv 1 0).outcome =
      .ok { items := [sampleAccess], lastUpdateIndex := { index := 0 } } ∧
    sampleLongPollEnv.snap1 = some ([sampleAccess], 7) ∧
    (0 : Int) ≠ 7 := by decide

/-- C1 (amended): for `lastUpdateIndex == 0` the handler answers
immediately from the request transaction with the full current snapshot
and no blocking, but the response's `LastUpdateIndex` is left at its
zero value instead of the server's current maximum update index. -/
theorem c1_index_zero_immediate_snapshot (env : LongPollEnv) (orgID : UID)
    (items : List DestinationAccess)
    (hauth : env.authorized = true) (hitems : env.reqTxItems = .found items) :
    ListDestinationAccess env orgID 0 =
      { outcome := .ok { items := destinationAccessToAPI items,
                         lastUpdateIndex := { index := 0 } },
        waited := false, channels := [], release := none,
        releaseFailureLogged := false } := by
  simp [ListDestinationAccess, hauth, hitems]

/-- Witness for C1 (amended) at the sample oracle. -/
theorem c1_witness :
    ListDestinationAccess sampleLongPollEnv 1 0 =
      { outcome := .ok { items := destinationAccessToAPI [sampleAccess],
                         lastUpdateIndex := { index := 0 } },
        waited := false, channels := [], release := none,
        releaseFailureLogged := false } :=
  c1_index_zero_immediate_snapshot sampleLongPollEnv 1 [sampleAccess] rfl rfl

/-- C2: on the blocking path (`lastUpdateIndex > 0`, destination and
grants resolved, transaction rolled back, listener registered) the
handler returns the fresh snapshot immediately when its max index
exceeds the client's; otherwise it waits: a request-context deadline
yields the unchanged snapshot with the not-modified sentinel, and a
notification yields the recomputed snapshot. -/
theorem c2_blocking_long_poll (env : LongPollEnv) (orgID : UID) (idx : Int)
    (dest : Destination) (grants : List Grant)
    (items1 : List DestinationAccess) (max1 : Int)
    (hauth : env.authorized = true) (hidx : 0 < idx)
    (hdest : env.destination = .found dest) (hgrants : env.grants = .found grants)
    (hrb : env.rollbackOK = true) (hlisten : env.listenOK = true)
    (hsnap1 : env.snap1 = some (items1, max1)) :
    (max1 > idx →
       (ListDestinationAccess env orgID idx).outcome =
         .ok { items := destinationAccessToAPI items1,
               lastUpdateIndex := { index := max1 } } ∧
       (ListDestinationAccess env orgID idx).waited = false) ∧
    (max1 ≤ idx → env.wait = .deadlineExceeded →
       (ListDestinationAccess env orgID idx).outcome =
         .notModified { items := destinationAccessToAPI items1,
                        lastUpdateIndex := { index := max1 } } ∧
       (ListDestinationAccess env orgID idx).waited = true) ∧
    (∀ items2 max2, max1 ≤ idx → env.wait = .notified →
       env.snap2 = some (items2, max2) →
       (ListDestinationAccess env orgID idx).outcome =
         .ok { items := destinationAccessToAPI items2,
               lastUpdateIndex := { index := max2 } } ∧
       (ListDestinationAccess env orgID idx).waited = true) := by
  have hne : (idx == 0) = false := by
    simp only [beq_eq_false_iff_ne, ne_eq]
    omega
  have hcall : ListDestinationAccess env orgID idx =
      { outcome := (blockingPhase env.snap1 env.wait env.snap2 idx).1,
        waited := (blockingPhase env.snap1 env.wait env.snap2 idx).2,
        channels := listenChannels orgID dest.id grants,
        release := some { detached := true, timeoutSeconds := 60 },
        releaseFailureLogged := env.releaseErr } := by
    simp [ListDestinationAccess, hauth, hne, hdest, hgrants, hrb, hlisten]
  refine ⟨?_, ?_, ?_⟩
  · intro hgt
    rw [hcall]
    simp [blockingPhase, listDestinationAccessWithMaxUpdateIndex, hsnap1, hgt]
  · intro hle hw
    have hnot : ¬ (max1 > idx) := by omega
    rw [hcall]
    simp [blockingPhase, listDestinationAccessWithMaxUpdateIndex, hsnap1, hnot, hw]
  · intro items2 max2 hle hw hsnap2
    have hnot : ¬ (max1 > idx) := by omega
    rw [hcall]
    simp [blockingPhase, listDestinationAccessWithMaxUpdateIndex, hsnap1, hsnap2, hnot, hw]

/-- Witness for C2, hitting all three branches at concrete oracles. -/
theorem c2_witness :
    ((ListDestinationAccess sampleLongPollEnv 1 3).outcome =
       .ok { items := destinationAccessToAPI [sampleAccess],
             lastUpdateIndex := { index := 7 } } ∧
     (ListDestinationAccess sampleLongPollEnv 1 3).waited = false) ∧
    ((ListDestinationAccess { sampleLongPollEnv with wait := .deadlineExceeded } 1 9).outcome =
       .notModified { items := destinationAccessToAPI [sampleAccess],
                      lastUpdateIndex := { index := 7 } } ∧
     (ListDestinationAccess { sampleLongPollEnv with wait := .deadlineExceeded } 1 9).waited = true) ∧
    ((ListDestinationAccess sampleLongPollEnv 1 9).outcome =
       .ok { items := destinationAccessToAPI [sampleAccess],
             lastUpdateIndex := { index := 9 } } ∧
     (ListDestinationAccess sampleLongPollEnv 1 9).waited = true) := by
  refine ⟨?_, ?_, ?_⟩
  · exact (c2_blocking_long_poll sampleLongPollEnv 1 3 { id := 4, name := "cluster" }
      [sampleGrant] [sampleAccess] 7 rfl (by decide) rfl rfl rfl rfl rfl).1 (by decide)
  · exact (c2_blocking_long_poll { sampleLongPollEnv with wait := .deadlineExceeded } 1 9
      { id := 4, name := "cluster" } [sampleGrant] [sampleAccess] 7 rfl (by decide)
      rfl rfl rfl rfl rfl).2.1 (by decide) rfl
  · exact (c2_blocking_long_poll sampleLongPollEnv 1 9 { id := 4, name := "cluster" }
      [sampleGrant] [sampleAccess] 7 rfl (by decide) rfl rfl rfl rfl rfl).2.2
      [sampleAccess] 9 (by decide) rfl rfl

/-- C5: once the listener is registered (blocking path reached), every
exit of the handler — immediate return, snapshot error, deadline,
cancellation, notification — carries the deferred release call with a
detached context bounded by a 60-second deadline; the handler's outcome
never depends on whether the release fails (failures are only logged);
and `Listener.Release` always issues `UNLISTEN *` and returns the
connection, reporting an error iff either step failed. -/
theorem c5_listener_release :
    (∀ env orgID (idx : Int) dest grants,
       env.authorized = true → idx ≠ 0 →
       env.destination = .found dest → env.grants = .found grants →
       env.rollbackOK = true → env.listenOK = true →
       (ListDestinationAccess env orgID idx).release =
         some { detached := true, timeoutSeconds := 60 } ∧
       (ListDestinationAccess env orgID idx).releaseFailureLogged = env.releaseErr) ∧
    (∀ env orgID (idx : Int) b,
       (ListDestinationAccess { env with releaseErr := b } orgID idx).outcome =
         (ListDestinationAccess env orgID idx).outcome) ∧
    (∀ u c, (listenerRelease u c).unlistenIssued = true ∧
            (listenerRelease u c).connReturned = true ∧
            ((listenerRelease u c).failed = true ↔ (u = true ∨ c = true))) := by
  refine ⟨?_, ?_, ?_⟩
  · intro env orgID idx dest grants hauth hidx hdest hgrants hrb hlisten
    have hne : (idx == 0) = false := by
      simp only [beq_eq_false_iff_ne, ne_eq]
      exact hidx
    constructor
    · simp [ListDestinationAccess, hauth, hne, hdest, hgrants, hrb, hlisten]
    · simp [ListDestinationAccess, hauth, hne, hdest, hgrants, hrb, hlisten]
  · intro env orgID idx b
    rcases env with ⟨auth, req, dst, gr, rb, lo, s1, w, s2, re⟩
    simp only [ListDestinationAccess]
    repeat' split <;> try rfl
  · intro u c
    cases u <;> cases c <;> refine ⟨rfl, rfl, by decide⟩

/-- Witness for C5 at the sample oracle. -/
theorem c5_witness :
    ((ListDestinationAccess sampleLongPollEnv 1 9).release =
       some { detached := true, timeoutSeconds := 60 } ∧
     (ListDestinationAccess sampleLongPollEnv 1 9).releaseFailureLogged =
       sampleLongPollEnv.releaseErr) ∧
    ((ListDestinationAccess { sampleLongPollEnv with releaseErr := true } 1 9).outcome =
       (ListDestinationAccess sampleLongPollEnv 1 9).outcome) ∧
    ((listenerRelease true false).unlistenIssued = true ∧
     (listenerRelease true false).connReturned = true ∧
     ((listenerRelease true false).failed = true ↔ (true = true ∨ false = true))) := by
  refine ⟨?_, ?_, ?_⟩
  · exact c5_listener_release.1 sampleLongPollEnv 1 9 { id := 4, name := "cluster" }
      [sampleGrant] rfl (by decide) rfl rfl rfl rfl
  · exact c5_listener_release.2.1 sampleLongPollEnv 1 9 true
  · exact c5_listener_release.2.2 true false

/-! ## C4: password-reset request -/

/-- C4 counterexample: an email whose identity exists but has no stored
credential makes `RequestPasswordReset` return an error, not 204 (and no
email is sent). -/
theorem c4_counterexample :
    RequestPasswordReset
      { rateLimitOK := true,
        identity := .found { id := 5, name := "carol@example.com" },
        credential := .notFound, tokenOK := true, emailOK := true } =
      { status := .errResp, emailSent := false } := by decide

/-- C4 (amended): an email with no matching identity yields 204 with no
email sent (no enumeration oracle), but an identity without a stored
credential yields an error response (with no email sent). -/
theorem c4_password_reset_silent_unknown (env : ResetEnv) :
    (env.rateLimitOK = true → env.identity = .notFound →
       RequestPasswordReset env = { status := .ok204, emailSent := false }) ∧
    (∀ u, env.rateLimitOK = true → env.identity = .found u → env.credential = .notFound →
       RequestPasswordReset env = { status := .errResp, emailSent := false }) := by
  constructor
  · intro hrl hid
    simp [RequestPasswordReset, hrl, hid]
  · intro u hrl hid hcred
    simp [RequestPasswordReset, hrl, hid, hcred]

/-- Witness for C4 (amended) at a concrete oracle. -/
theorem c4_witness :
    RequestPasswordReset
      { rateLimitOK := true, identity := .notFound, credential := .notFound,
        tokenOK := true, emailOK := true } =
      { status := .ok204, emailSent := false } :=
  (c4_password_reset_silent_unknown
    { rateLimitOK := true, identity := .notFound, credential := .notFound,
      tokenOK := true, emailOK := true }).1 rfl rfl

/-! ## C8: bootstrap access-key loading -/

/-- C8: for a non-empty configured access key, the loader fails with the
invalid-format error exactly when the resolved string contains no dot;
every key it creates expires ten years from now, carries the
allow-create-access-key scope, and is created only when no key with that
key id exists; and a key id already issued for another identity fails
the load. -/
theorem c8_load_access_key (store : AccessKeyStore) (idn : Identity) (key : String)
    (hkey : key ≠ "") :
    (∀ s, store.getSecret key = some s →
       (loadAccessKey store idn key = .invalidFormat ↔ goCut s = none)) ∧
    (store.getSecret key = none → loadAccessKey store idn key = .resolveErr) ∧
    (∀ s kid sec, store.getSecret key = some s → goCut s = some (kid, sec) →
       store.getAccessKey kid = .notFound →
       store.createOK = true → store.providerUserOK = true →
       loadAccessKey store idn key =
         .created { issuedFor := idn.id, providerID := store.infraProviderID,
                    keyID := kid, secret := sec,
                    expiresAt := .addDate .now 10 0 0,
                    scopes := [ScopeAllowCreateAccessKey] }) ∧
    (∀ k, loadAccessKey store idn key = .created k →
       k.expiresAt = .addDate .now 10 0 0 ∧
       ScopeAllowCreateAccessKey ∈ k.scopes ∧
       store.getAccessKey k.keyID = .notFound) ∧
    (∀ s kid sec k, store.getSecret key = some s → goCut s = some (kid, sec) →
       store.getAccessKey kid = .found k → k.issuedFor ≠ idn.id →
       loadAccessKey store idn key = .assignedToOther) := by
  have hne : (key == "") = false := by
    simp only [beq_eq_false_iff_ne, ne_eq]
    exact hkey
  refine ⟨?_, ?_, ?_, ?_, ?_⟩
  · intro s hs
    cases hcut : goCut s with
    | none => simp [loadAccessKey, hne, hs, hcut]
    | some p =>
      obtain ⟨kid, sec⟩ := p
      cases hga : store.getAccessKey kid with
      | notFound =>
        cases hco : (store.createOK && store.providerUserOK) <;>
          simp [loadAccessKey, hne, hs, hcut, hga, hco]
      | dbError => simp [loadAccessKey, hne, hs, hcut, hga]
      | found k =>
        cases hif : (k.issuedFor != idn.id) <;>
          cases hup : store.updateOK <;>
            simp [loadAccessKey, hne, hs, hcut, hga, hif, hup]
  · intro hs
    simp [loadAccessKey, hne, hs]
  · intro s kid sec hs hcut hga hco hpu
    simp [loadAccessKey, hne, hs, hcut, hga, hco, hpu]
  · intro k h
    unfold loadAccessKey at h
    rw [if_neg (by simp [hkey])] at h
    cases hs : store.getSecret key with
    | none => simp only [hs] at h; simp at h
    | some s =>
      simp only [hs] at h
      cases hcut : goCut s with
      | none => simp only [hcut] at h; simp at h
      | some p =>
        obtain ⟨kid, sec⟩ := p
        simp only [hcut] at h
        cases hga : store.getAccessKey kid with
        | notFound =>
          simp only [hga] at h
          cases hco : (store.createOK && store.providerUserOK) <;> simp [hco] at h
          rw [← h]
          exact ⟨rfl, by simp, hga⟩
        | dbError => simp only [hga] at h; simp at h
        | found k0 =>
          simp only [hga] at h
          cases hif : (k0.issuedFor != idn.id) <;>
            cases hup : store.updateOK <;> simp [hif, hup] at h
  · intro s kid sec k hs hcut hga hif
    simp [loadAccessKey, hne, hs, hcut, hga, bne_iff_ne, hif]

/-- Witness for C8 at concrete stores and keys. -/
theorem c8_witness :
    ((loadAccessKey sampleAccessKeyStore { id := 3, name := "eve@example.com" } "abc.def" =
        .invalidFormat) ↔ goCut "abc.def" = none) ∧
    (loadAccessKey { sampleAccessKeyStore with getSecret := fun _ => none }
       { id := 3, name := "eve@example.com" } "abc.def" = .resolveErr) ∧
    (loadAccessKey sampleAccessKeyStore { id := 3, name := "eve@example.com" } "abc.def" =
       .created { issuedFor := 3, providerID := 42, keyID := "abc", secret := "def",
                  expiresAt := .addDate .now 10 0 0,
                  scopes := [ScopeAllowCreateAccessKey] }) ∧
    (loadAccessKey
       { sampleAccessKeyStore with
         getAccessKey := fun _ => DBGet.found ⟨9, 42, "abc", "old", .now, []⟩ }
       { id := 3, name := "eve@example.com" } "abc.def" = .assignedToOther) := by
  refine ⟨?_, ?_, ?_, ?_⟩
  · exact (c8_load_access_key sampleAccessKeyStore
      { id := 3, name := "eve@example.com" } "abc.def" (by decide)).1 "abc.def" rfl
  · exact (c8_load_access_key { sampleAccessKeyStore with getSecret := fun _ => none }
      { id := 3, name := "eve@example.com" } "abc.def" (by decide)).2.1 rfl
  · exact (c8_load_access_key sampleAccessKeyStore
      { id := 3, name := "eve@example.com" } "abc.def" (by decide)).2.2.1
      "abc.def" "abc" "def" rfl (by decide) rfl rfl rfl
  · exact (c8_load_access_key
      { sampleAccessKeyStore with
        getAccessKey := fun _ => DBGet.found ⟨9, 42, "abc", "old", .now, []⟩ }
      { id := 3, name := "eve@example.com" } "abc.def" (by decide)).2.2.2.2
      "abc.def" "abc" "def" ⟨9, 42, "abc", "old", .now, []⟩
      rfl (by decide) rfl (by decide)

/-! ## C3: bootstrap provider reconciliation -/

/-- The row written by `createOrUpdateProvider` is in the result, has the
configured kind, and is live. -/
theorem createOrUpdateProvider_row (db : List Provider) (fresh : UID) (p : ConfigProvider) :
    (createOrUpdateProvider db fresh p).2 ∈ (createOrUpdateProvider db fresh p).1 ∧
    (createOrUpdateProvider db fresh p).2.kind = p.kind ∧
    (createOrUpdateProvider db fresh p).2.deleted = false := by
  unfold createOrUpdateProvider
  cases hf : db.find? (fun q => q.kind == p.kind && !q.deleted) with
  | none => simp
  | some existing =>
    have hp := List.find?_some hf
    have hm := List.mem_of_find?_eq_some hf
    simp only [Bool.and_eq_true, beq_iff_eq, Bool.not_eq_true'] at hp
    refine ⟨?_, hp.1, hp.2⟩
    simp only
    exact List.mem_map.mpr ⟨existing, hm, by simp⟩

/-- `createOrUpdateProvider` preserves distinct ids, keeps ids below the
next fresh id, and keeps every live row (identified by id and kind)
live. -/
theorem createOrUpdateProvider_preserves (db : List Provider) (fresh : UID) (p : ConfigProvider)
    (hnodup : (db.map Provider.id).Nodup) (hbound : ∀ q ∈ db, q.id < fresh) :
    ((createOrUpdateProvider db fresh p).1.map Provider.id).Nodup ∧
    (∀ q ∈ (createOrUpdateProvider db fresh p).1, q.id < fresh + 1) ∧
    (∀ i K, (∃ q ∈ db, q.id = i ∧ q.kind = K ∧ q.deleted = false) →
       ∃ q ∈ (createOrUpdateProvider db fresh p).1,
         q.id = i ∧ q.kind = K ∧ q.deleted = false) := by
  cases hf : db.find? (fun q => q.kind == p.kind && !q.deleted) with
  | none =>
    simp only [createOrUpdateProvider, hf]
    refine ⟨?_, ?_, ?_⟩
    · rw [List.map_append, List.nodup_append]
      refine ⟨hnodup, by simp, ?_⟩
      intro x hx
      simp only [List.mem_map] at hx
      obtain ⟨q, hq, hqi⟩ := hx
      have hlt := hbound q hq
      simp only [List.map_cons, List.map_nil, List.mem_singleton]
      intro hx
      exact absurd hlt (by rw [hqi, hx]; exact Nat.lt_irrefl fresh)
    · intro q hq
      rcases List.mem_append.mp hq with hq | hq
      · exact Nat.lt_succ_of_lt (hbound q hq)
      · simp only [List.mem_singleton] at hq
        subst hq
        exact Nat.lt_succ_self fresh
    · intro i K hex
      obtain ⟨q, hq, hqi, hqk, hqd⟩ := hex
      exact ⟨q, List.mem_append.mpr (Or.inl hq), hqi, hqk, hqd⟩
  | some existing =>
    have hidmap : ∀ q ∈ db,
        Provider.id (if (q.id == existing.id) = true then { existing with domain := p.domain, clientID := p.clientID, clientSecret := p.clientSecret } else q) = q.id := by
      intro q _
      by_cases hqe : (q.id == existing.id) = true
      · rw [if_pos hqe]
        have hqid : q.id = existing.id := by simpa using hqe
        simp [hqid]
      · rw [if_neg hqe]
    simp only [createOrUpdateProvider, hf]
    refine ⟨?_, ?_, ?_⟩
    · rw [List.map_map]
      have hcongr := List.map_congr_left hidmap
      rw [show (Provider.id ∘ fun q => if (q.id == existing.id) = true then { existing with domain := p.domain, clientID := p.clientID, clientSecret := p.clientSecret } else q) = (fun q => Provider.id (if (q.id == existing.id) = true then { existing with domain := p.domain, clientID := p.clientID, clientSecret := p.clientSecret } else q)) from rfl]
      rw [hcongr]
      exact hnodup
    · intro q hq
      simp only [List.mem_map] at hq
      obtain ⟨q0, hq0, hfq⟩ := hq
      have hid := hidmap q0 hq0
      rw [hfq] at hid
      rw [hid]
      exact Nat.lt_succ_of_lt (hbound q0 hq0)
    · intro i K hex
      obtain ⟨q, hq, hqi, hqk, hqd⟩ := hex
      by_cases hqe : (q.id == existing.id) = true
      · have heq : q.id = existing.id := by simpa using hqe
        have hqex : q = existing := by
          have hmex := List.mem_of_find?_eq_some hf
          exact List.inj_on_of_nodup_map hnodup hq hmex heq
        subst hqex
        refine ⟨{ q with domain := p.domain, clientID := p.clientID, clientSecret := p.clientSecret }, List.mem_map.mpr ⟨q, hq, by rw [if_pos hqe]⟩, hqi, hqk, hqd⟩
      · exact ⟨q, List.mem_map.mpr ⟨q, hq, by rw [if_neg hqe]⟩, hqi, hqk, hqd⟩

/-- Invariants of the upsert loop of `importProviders`: the kept-id list
only grows, live rows stay live, and every configured provider ends in
the database as a live row whose id is kept. -/
theorem importProvidersLoop_spec (cfg : List ConfigProvider) :
    ∀ db n keep db1 keep1,
      (db.map Provider.id).Nodup →
      (∀ q ∈ db, q.id < n) →
      importProvidersLoop db n keep cfg = some (db1, keep1) →
      ((∀ x ∈ keep, x ∈ keep1) ∧
       (∀ i K, (∃ q ∈ db, q.id = i ∧ q.kind = K ∧ q.deleted = false) →
          ∃ q ∈ db1, q.id = i ∧ q.kind = K ∧ q.deleted = false) ∧
       (∀ c ∈ cfg, ∃ q ∈ db1, q.kind = c.kind ∧ q.deleted = false ∧ q.id ∈ keep1)) := by
  induction cfg with
  | nil =>
    intro db n keep db1 keep1 _ _ h
    simp only [importProvidersLoop, Option.some.injEq, Prod.mk.injEq] at h
    obtain ⟨h1, h2⟩ := h
    subst h1; subst h2
    exact ⟨fun x hx => hx, fun i K hex => hex, by simp⟩
  | cons p rest ih =>
    intro db n keep db1 keep1 hnd hb h
    unfold importProvidersLoop at h
    cases hv : validProvider p with
    | false => rw [hv] at h; simp at h
    | true =>
      rw [hv] at h
      simp only [Bool.not_true, Bool.false_eq_true, if_false] at h
      obtain ⟨hndA, hbA, hpres⟩ := createOrUpdateProvider_preserves db n p hnd hb
      obtain ⟨hrowm, hrowk, hrowd⟩ := createOrUpdateProvider_row db n p
      have hIH := ih (createOrUpdateProvider db n p).1 (n + 1)
        (keep ++ [(createOrUpdateProvider db n p).2.id]) db1 keep1 hndA hbA h
      refine ⟨?_, ?_, ?_⟩
      · intro x hx
        exact hIH.1 x (List.mem_append.mpr (Or.inl hx))
      · intro i K hex
        exact hIH.2.1 i K (hpres i K hex)
      · intro c hc
        rcases List.mem_cons.mp hc with hcp | hcr
        · obtain ⟨q, hq, hqi, hqk, hqd⟩ :=
            hIH.2.1 (createOrUpdateProvider db n p).2.id p.kind
              ⟨(createOrUpdateProvider db n p).2, hrowm, rfl, hrowk, hrowd⟩
          rw [hcp]
          refine ⟨q, hq, hqk, hqd, ?_⟩
          rw [hqi]
          exact hIH.1 _ (List.mem_append.mpr (Or.inr (List.mem_singleton.mpr rfl)))
        · exact hIH.2.2 c hcr

/-- C3 counterexample: importing providers `[okta, google]` over a
database holding `[okta, azure, infra]` soft-deletes the built-in infra
provider along with azure — there is no exclusion for `infra` in the
reconciliation. -/
theorem c3_counterexample :
    importProviders scenarioDB 10 scenarioCfg =
      some [ { id := 1, kind := "okta", domain := "okta.example.com", clientID := "c1",
               clientSecret := "s1", deleted := false },
             { id := 2, kind := "azure", domain := "azure.example.com", clientID := "c2",
               clientSecret := "s2", deleted := true },
             { id := 3, kind := "infra", domain := "infra.example.com", clientID := "c3",
               clientSecret := "s3", deleted := true },
             { id := 11, kind := "google", domain := "google.example.com", clientID := "c4",
               clientSecret := "s4", deleted := false } ] := by decide

/-- C3 (amended): provider reconciliation upserts every configured
provider (each ends live with its id in the kept set) and then
soft-deletes every provider whose id is not in the kept set — including
the built-in infra provider, which is not excluded. -/
theorem c3_reconcile_without_infra_exclusion (db : List Provider) (nextID : UID)
    (cfg : List ConfigProvider) (db1 : List Provider) (toKeep : List UID)
    (hnodup : (db.map Provider.id).Nodup)
    (hbound : ∀ q ∈ db, q.id < nextID)
    (h : importProvidersLoop db nextID [] cfg = some (db1, toKeep)) :
    importProviders db nextID cfg = some (deleteProvidersNotKept db1 toKeep) ∧
    (∀ q ∈ deleteProvidersNotKept db1 toKeep, q.id ∉ toKeep → q.deleted = true) ∧
    (∀ q ∈ deleteProvidersNotKept db1 toKeep, q.id ∈ toKeep → q ∈ db1) ∧
    (∀ c ∈ cfg, ∃ q ∈ deleteProvidersNotKept db1 toKeep,
       q.kind = c.kind ∧ q.deleted = false ∧ q.id ∈ toKeep) := by
  have hloop := importProvidersLoop_spec cfg db nextID [] db1 toKeep hnodup hbound h
  refine ⟨?_, ?_, ?_, ?_⟩
  · simp [importProviders, h]
  · intro q hq hnk
    unfold deleteProvidersNotKept at hq
    obtain ⟨q0, hq0, hfq⟩ := List.mem_map.mp hq
    by_cases hc : (toKeep.contains q0.id) = true
    · exfalso
      rw [if_pos hc] at hfq
      subst hfq
      exact hnk (List.elem_iff.mp hc)
    · rw [if_neg hc] at hfq
      rw [← hfq]
  · intro q hq hk
    unfold deleteProvidersNotKept at hq
    obtain ⟨q0, hq0, hfq⟩ := List.mem_map.mp hq
    by_cases hc : (toKeep.contains q0.id) = true
    · rw [if_pos hc] at hfq
      subst hfq
      exact hq0
    · exfalso
      rw [if_neg hc] at hfq
      apply hc
      apply List.elem_iff.mpr
      have : q.id = q0.id := by rw [← hfq]
      rw [← this]
      exact hk
  · intro c hc
    obtain ⟨q, hq, hqk, hqd, hqkeep⟩ := hloop.2.2 c hc
    have hcq : (toKeep.contains q.id) = true := List.elem_iff.mpr hqkeep
    refine ⟨q, ?_, hqk, hqd, hqkeep⟩
    unfold deleteProvidersNotKept
    exact List.mem_map.mpr ⟨q, hq, by rw [if_pos hcq]⟩

/-- Witness for C3 (amended) on the scenario database. -/
theorem c3_witness :
    importProviders scenarioDB 10 scenarioCfg =
      some (deleteProvidersNotKept
        [ { id := 1, kind := "okta", domain := "okta.example.com", clientID := "c1",
            clientSecret := "s1", deleted := false },
          { id := 2, kind := "azure", domain := "azure.example.com", clientID := "c2",
            clientSecret := "s2", deleted := false },
          { id := 3, kind := "infra", domain := "infra.example.com", clientID := "c3",
            clientSecret := "s3", deleted := false },
          { id := 11, kind := "google", domain := "google.example.com", clientID := "c4",
            clientSecret := "s4", deleted := false } ] [1, 11]) :=
  (c3_reconcile_without_infra_exclusion scenarioDB 10 scenarioCfg
    [ { id := 1, kind := "okta", domain := "okta.example.com", clientID := "c1",
        clientSecret := "s1", deleted := false },
      { id := 2, kind := "azure", domain := "azure.example.com", clientID := "c2",
        clientSecret := "s2", deleted := false },
      { id := 3, kind := "infra", domain := "infra.example.com", clientID := "c3",
        clientSecret := "s3", deleted := false },
      { id := 11, kind := "google", domain := "google.example.com", clientID := "c4",
        clientSecret := "s4", deleted := false } ] [1, 11]
    (by decide) (by decide) (by decide)).1

/-! ## C6: secret-provider loading -/

/-- Key membership after registering one more entry. -/
theorem hasKey_append (m : StorageMap) (n : String) (v : SecretStorage) (k : String) :
    hasKey (m ++ [(n, v)]) k = (hasKey m k || (n == k)) := by
  simp [hasKey]

/-- Lookups of present keys are unchanged by appends. -/
theorem getKey_append_of_hasKey (m ext : StorageMap) (k : String)
    (h : hasKey m k = true) : getKey (m ++ ext) k = getKey m k := by
  unfold getKey
  rw [List.find?_append]
  unfold hasKey at h
  obtain ⟨e, he, hek⟩ := List.any_eq_true.mp h
  cases hf : m.find? (fun e => e.1 == k) with
  | some e0 => simp
  | none =>
    exfalso
    have := List.find?_eq_none.mp hf e he
    simp [hek] at this

/-- Key membership after one default-installation block. -/
theorem ensureDefault_hasKey (m : StorageMap) (n : String) (v : SecretStorage) (k : String) :
    hasKey (ensureDefault m n v) k = (hasKey m k || (n == k)) := by
  unfold ensureDefault
  by_cases hn : hasKey m n = true
  · rw [if_pos hn]
    by_cases hkn : n = k
    · subst hkn
      simp [hn]
    · have : (n == k) = false := beq_eq_false_iff_ne.mpr hkn
      simp [this]
  · rw [if_neg hn]
    exact hasKey_append m n v k

/-- Lookups of present keys are unchanged by default installation. -/
theorem ensureDefault_getKey_of (m : StorageMap) (n : String) (v : SecretStorage) (k : String)
    (h : hasKey m k = true) : getKey (ensureDefault m n v) k = getKey m k := by
  unfold ensureDefault
  by_cases hn : hasKey m n = true
  · rw [if_pos hn]
  · rw [if_neg hn]
    exact getKey_append_of_hasKey m [(n, v)] k h

/-- `loadSecretConfig` rejects an entry whose effective name is taken. -/
theorem loadSecretConfig_dup (env : SecretsEnv) (st : StorageMap) (s : SecretProvider)
    (h : hasKey st (secretName s) = true) :
    loadSecretConfig env st s = .error (.duplicateName (secretName s)) := by
  unfold loadSecretConfig
  rw [if_pos h]

/-- A successful `loadSecretConfig` finds the name free and registers
exactly one entry under it, at the end of the registry. -/
theorem loadSecretConfig_shape (env : SecretsEnv) (st : StorageMap) (s : SecretProvider)
    (st' : StorageMap) (h : loadSecretConfig env st s = .ok st') :
    hasKey st (secretName s) = false ∧ ∃ v, st' = st ++ [(secretName s, v)] := by
  by_cases hdup : hasKey st (secretName s) = true
  · rw [loadSecretConfig_dup env st s hdup] at h
    simp at h
  · refine ⟨by simpa using hdup, ?_⟩
    simp only [loadSecretConfig] at h
    rw [if_neg hdup] at h
    repeat' split at h
    all_goals
      first
        | (simp only [Except.ok.injEq] at h; exact ⟨_, h.symm⟩)
        | simp at h

/-- `loadSecretConfig` never succeeds on an unknown kind. -/
theorem loadSecretConfig_unknown_kind (env : SecretsEnv) (st : StorageMap)
    (s : SecretProvider) (st1 : StorageMap) (hnk : s.kind ∉ knownSecretKinds) :
    loadSecretConfig env st s ≠ .ok st1 := by
  simp only [knownSecretKinds, List.mem_cons, List.not_mem_nil, or_false, not_or] at hnk
  obtain ⟨h1, h2, h3, h4, h5, h6, h7, h8⟩ := hnk
  intro h
  have e1 : (s.kind == "vault") = false := beq_eq_false_iff_ne.mpr h1
  have e2 : (s.kind == "awsssm") = false := beq_eq_false_iff_ne.mpr h2
  have e3 : (s.kind == "awssecretsmanager") = false := beq_eq_false_iff_ne.mpr h3
  have e4 : (s.kind == "kubernetes") = false := beq_eq_false_iff_ne.mpr h4
  have e5 : (s.kind == "env") = false := beq_eq_false_iff_ne.mpr h5
  have e6 : (s.kind == "file") = false := beq_eq_false_iff_ne.mpr h6
  have e7 : (s.kind == "plaintext") = false := beq_eq_false_iff_ne.mpr h7
  have e8 : (s.kind == "") = false := beq_eq_false_iff_ne.mpr h8
  simp only [loadSecretConfig, e1, e2, e3, e4, e5, e6, e7, e8, Bool.or_self,
    Bool.false_eq_true, if_false] at h
  split at h <;> simp at h

/-- Successful loads preserve existing keys. -/
theorem loadAll_keys (env : SecretsEnv) (cfg : List SecretProvider) :
    ∀ st st', loadAll env st cfg = .ok st' →
      ∀ k, hasKey st k = true → hasKey st' k = true := by
  induction cfg with
  | nil =>
    intro st st' h k hk
    simp only [loadAll, Except.ok.injEq] at h
    rw [← h]
    exact hk
  | cons s rest ih =>
    intro st st' h k hk
    unfold loadAll at h
    cases hl : loadSecretConfig env st s with
    | error e => simp [hl] at h
    | ok st1 =>
      simp only [hl] at h
      obtain ⟨-, v, hshape⟩ := loadSecretConfig_shape env st s st1 hl
      apply ih st1 st' h k
      rw [hshape, hasKey_append, hk]
      simp

/-- A successful load of an entry list finds every effective name fresh,
binds pairwise distinct names, and registers every one of them. -/
theorem loadAll_nodup (env : SecretsEnv) (cfg : List SecretProvider) :
    ∀ st st', loadAll env st cfg = .ok st' →
      ((cfg.map secretName).Nodup ∧
       ∀ e ∈ cfg, hasKey st (secretName e) = false ∧ hasKey st' (secretName e) = true) := by
  induction cfg with
  | nil =>
    intro st st' h
    exact ⟨List.nodup_nil, by simp⟩
  | cons s rest ih =>
    intro st st' h
    unfold loadAll at h
    cases hl : loadSecretConfig env st s with
    | error e => simp [hl] at h
    | ok st1 =>
      simp only [hl] at h
      obtain ⟨hfree, v, hshape⟩ := loadSecretConfig_shape env st s st1 hl
      obtain ⟨ndRest, hRest⟩ := ih st1 st' h
      have hst1 : hasKey st1 (secretName s) = true := by
        rw [hshape, hasKey_append]
        simp
      constructor
      · rw [List.map_cons, List.nodup_cons]
        refine ⟨?_, ndRest⟩
        intro hmem
        obtain ⟨e, he, hne⟩ := List.mem_map.mp hmem
        have hfe := (hRest e he).1
        rw [hne] at hfe
        rw [hfe] at hst1
        exact Bool.false_ne_true hst1
      · intro e he
        rcases List.mem_cons.mp he with rfl | he'
        · exact ⟨hfree, loadAll_keys env rest st1 st' h _ hst1⟩
        · have h1 := (hRest e he').1
          refine ⟨?_, (hRest e he').2⟩
          rw [hshape, hasKey_append] at h1
          exact (Bool.or_eq_false_iff.mp h1).1

/-- Every entry of a successfully loaded list was itself loaded
successfully from some registry state. -/
theorem loadAll_ok_mem (env : SecretsEnv) (cfg : List SecretProvider) :
    ∀ st st' e, loadAll env st cfg = .ok st' → e ∈ cfg →
      ∃ st0 st1, loadSecretConfig env st0 e = .ok st1 := by
  induction cfg with
  | nil => intro st st' e h he; cases he
  | cons s rest ih =>
    intro st st' e h he
    unfold loadAll at h
    cases hl : loadSecretConfig env st s with
    | error er => simp [hl] at h
    | ok st1 =>
      simp only [hl] at h
      rcases List.mem_cons.mp he with rfl | he'
      · exact ⟨st, st1, hl⟩
      · exact ih st1 st' e h he'

/-- Each pass of `importSecrets` loads exactly the entries whose
base-kind status matches, in configuration order. -/
theorem importSecretsPass_eq_filter (env : SecretsEnv) (b : Bool) (cfg : List SecretProvider) :
    ∀ st, importSecretsPass env b st cfg =
      loadAll env st (cfg.filter (fun s => isABaseSecretStorageKind s.kind == b)) := by
  induction cfg with
  | nil => intro st; rfl
  | cons s rest ih =>
    intro st
    rw [List.filter_cons]
    cases hc : (isABaseSecretStorageKind s.kind == b) with
    | true =>
      simp only [importSecretsPass, bne, hc, Bool.not_true, Bool.false_eq_true, if_false,
        if_true]
      cases hl : loadSecretConfig env st s with
      | error e => simp [loadAll, hl]
      | ok st1 =>
        simp only [loadAll, hl]
        exact ih st1
    | false =>
      simp only [importSecretsPass, bne, hc, Bool.not_false, if_true, Bool.false_eq_true,
        if_false]
      exact ih st

/-- Behavior of `loadDefaultSecretConfig`: env, file and plaintext are
present afterwards; kubernetes is present iff it already was or
`KUBERNETES_SERVICE_HOST` is set; entries already present are untouched. -/
theorem loadDefaultSecretConfig_spec (env : SecretsEnv) (st st' : StorageMap)
    (h : loadDefaultSecretConfig env st = .ok st') :
    hasKey st' "env" = true ∧ hasKey st' "file" = true ∧ hasKey st' "plaintext" = true ∧
    (hasKey st' "kubernetes" = (hasKey st "kubernetes" || env.k8sEnvSet)) ∧
    (∀ k, hasKey st k = true → getKey st' k = getKey st k ∧ hasKey st' k = true) := by
  simp only [loadDefaultSecretConfig] at h
  set s3 := ensureDefault (ensureDefault (ensureDefault st "env"
      (SecretStorage.env { base64 := false, base64URLEncoded := false, base64Raw := false }))
    "file" (SecretStorage.file { generic :=
      { base64 := false, base64URLEncoded := false, base64Raw := false }, path := "" }))
    "plaintext" (SecretStorage.plaintext
      { base64 := false, base64URLEncoded := false, base64Raw := false }) with hs3
  have hkenv : hasKey s3 "env" = true := by
    rw [hs3, ensureDefault_hasKey, ensureDefault_hasKey, ensureDefault_hasKey]
    simp
  have hkfile : hasKey s3 "file" = true := by
    rw [hs3, ensureDefault_hasKey, ensureDefault_hasKey, ensureDefault_hasKey]
    simp
  have hkplain : hasKey s3 "plaintext" = true := by
    rw [hs3, ensureDefault_hasKey, ensureDefault_hasKey, ensureDefault_hasKey]
    simp
  have hkk8s : hasKey s3 "kubernetes" = hasKey st "kubernetes" := by
    rw [hs3, ensureDefault_hasKey, ensureDefault_hasKey, ensureDefault_hasKey]
    simp
  have hpres : ∀ k, hasKey st k = true → getKey s3 k = getKey st k ∧ hasKey s3 k = true := by
    intro k hk
    have h1 : hasKey (ensureDefault st "env"
        (SecretStorage.env { base64 := false, base64URLEncoded := false, base64Raw := false }))
        k = true := by
      rw [ensureDefault_hasKey, hk]; simp
    have h2 : hasKey (ensureDefault (ensureDefault st "env"
        (SecretStorage.env { base64 := false, base64URLEncoded := false, base64Raw := false }))
        "file" (SecretStorage.file { generic :=
          { base64 := false, base64URLEncoded := false, base64Raw := false }, path := "" }))
        k = true := by
      rw [ensureDefault_hasKey, h1]; simp
    have h3 : hasKey s3 k = true := by
      rw [hs3, ensureDefault_hasKey, h2]; simp
    refine ⟨?_, h3⟩
    rw [hs3]
    rw [ensureDefault_getKey_of _ _ _ _ h2, ensureDefault_getKey_of _ _ _ _ h1,
      ensureDefault_getKey_of _ _ _ _ hk]
  split at h
  next hck =>
    simp only [Except.ok.injEq] at h
    subst h
    refine ⟨hkenv, hkfile, hkplain, ?_, hpres⟩
    rw [hkk8s] at hck ⊢
    rw [hck]
    simp
  next hck =>
    split at h
    next hset =>
      split at h
      next hok =>
        simp only [Except.ok.injEq] at h
        subst h
        have hmono : ∀ k, hasKey s3 k = true → hasKey (s3 ++
            [("kubernetes", SecretStorage.kubernetes newKubernetesConfig)]) k = true := by
          intro k hk
          rw [hasKey_append, hk]; simp
        refine ⟨hmono _ hkenv, hmono _ hkfile, hmono _ hkplain, ?_, ?_⟩
        · rw [hasKey_append]
          have hf : hasKey s3 "kubernetes" = false := by
            rw [hkk8s]
            rw [hkk8s] at hck
            simpa using hck
          rw [hf]
          rw [hkk8s] at hf
          rw [hf, hset]
          simp
        · intro k hk
          obtain ⟨hg, hh⟩ := hpres k hk
          refine ⟨?_, hmono _ hh⟩
          rw [getKey_append_of_hasKey _ _ _ hh, hg]
      next hok => simp at h
    next hset =>
      simp only [Except.ok.injEq] at h
      subst h
      refine ⟨hkenv, hkfile, hkplain, ?_, hpres⟩
      rw [hkk8s]
      have : env.k8sEnvSet = false := by simpa using hset
      rw [this]
      simp

/-- C6: secret loading is two-pass — all base-kind entries are
instantiated (in order) before any non-base entry, with the defaults
installed in between; `loadDefaultSecretConfig` installs env, file and
plaintext when absent, installs kubernetes iff `KUBERNETES_SERVICE_HOST`
is set, and never overwrites an existing entry; a duplicate effective
name makes loading fail (success forces pairwise-distinct names); and an
unknown kind makes loading fail (success forces every kind known). -/
theorem c6_import_secrets_two_pass :
    (∀ env cfg st,
       importSecrets env cfg st =
         Except.bind (loadAll env st (cfg.filter (fun s => isABaseSecretStorageKind s.kind)))
           (fun st1 => Except.bind (loadDefaultSecretConfig env st1)
             (fun st2 =>
               loadAll env st2 (cfg.filter (fun s => !isABaseSecretStorageKind s.kind))))) ∧
    (∀ env st st', loadDefaultSecretConfig env st = .ok st' →
       hasKey st' "env" = true ∧ hasKey st' "file" = true ∧ hasKey st' "plaintext" = true ∧
       hasKey st' "kubernetes" = (hasKey st "kubernetes" || env.k8sEnvSet) ∧
       (∀ k, hasKey st k = true → getKey st' k = getKey st k)) ∧
    (∀ env cfg st st', importSecrets env cfg st = .ok st' →
       (cfg.map secretName).Nodup) ∧
    (∀ env cfg st st', importSecrets env cfg st = .ok st' →
       ∀ e ∈ cfg, e.kind ∈ knownSecretKinds) := by
  refine ⟨?_, ?_, ?_, ?_⟩
  · intro env cfg st
    simp only [importSecrets, importSecretsPass_eq_filter, beq_true, beq_false]
    cases hA : loadAll env st (cfg.filter (fun s => isABaseSecretStorageKind s.kind)) with
    | error e => simp [Except.bind]
    | ok st1 =>
      cases hB : loadDefaultSecretConfig env st1 with
      | error e => simp [hB, Except.bind]
      | ok st2 => simp [hB, Except.bind]
  · intro env st st' h
    obtain ⟨h1, h2, h3, h4, h5⟩ := loadDefaultSecretConfig_spec env st st' h
    exact ⟨h1, h2, h3, h4, fun k hk => (h5 k hk).1⟩
  · intro env cfg st st' h
    unfold importSecrets at h
    cases hp1 : importSecretsPass env true st cfg with
    | error e => simp [hp1] at h
    | ok st1 =>
      simp only [hp1] at h
      cases hd : loadDefaultSecretConfig env st1 with
      | error e => simp [hd] at h
      | ok st2 =>
        simp only [hd] at h
        rw [importSecretsPass_eq_filter] at hp1 h
        simp only [beq_true, beq_false] at hp1 h
        obtain ⟨ndB, hB⟩ := loadAll_nodup env _ st st1 hp1
        obtain ⟨ndN, hN⟩ := loadAll_nodup env _ st2 st' h
        have hdisj : ∀ x ∈ (cfg.filter (fun s => isABaseSecretStorageKind s.kind)).map secretName,
            x ∉ (cfg.filter (fun s => !isABaseSecretStorageKind s.kind)).map secretName := by
          intro x hx hx'
          obtain ⟨e1, he1, hxe1⟩ := List.mem_map.mp hx
          obtain ⟨e2, he2, hxe2⟩ := List.mem_map.mp hx'
          have h1 := (hB e1 he1).2
          have h2 : hasKey st2 (secretName e1) = true :=
            ((loadDefaultSecretConfig_spec env st1 st2 hd).2.2.2.2 (secretName e1) h1).2
          have h3 := (hN e2 he2).1
          rw [hxe1] at h2
          rw [hxe2] at h3
          rw [h3] at h2
          exact Bool.false_ne_true h2
        have hnd : (((cfg.filter (fun s => isABaseSecretStorageKind s.kind)).map secretName) ++
            ((cfg.filter (fun s => !isABaseSecretStorageKind s.kind)).map secretName)).Nodup :=
          List.nodup_append.mpr ⟨ndB, ndN, hdisj⟩
        have hperm : List.Perm
            (((cfg.filter (fun s => isABaseSecretStorageKind s.kind)).map secretName) ++
              ((cfg.filter (fun s => !isABaseSecretStorageKind s.kind)).map secretName))
            (cfg.map secretName) := by
          have hp := List.filter_append_perm (fun s => isABaseSecretStorageKind s.kind) cfg
          have := hp.map secretName
          rw [List.map_append] at this
          exact this
        exact (List.Perm.nodup_iff hperm).mp hnd
  · intro env cfg st st' h e he
    unfold importSecrets at h
    cases hp1 : importSecretsPass env true st cfg with
    | error er => simp [hp1] at h
    | ok st1 =>
      simp only [hp1] at h
      cases hd : loadDefaultSecretConfig env st1 with
      | error er => simp [hd] at h
      | ok st2 =>
        simp only [hd] at h
        by_cases hbase : isABaseSecretStorageKind e.kind = true
        · have hmem : e.kind ∈ baseSecretStorageKinds := List.elem_iff.mp hbase
          simp only [baseSecretStorageKinds, List.mem_cons, List.not_mem_nil, or_false] at hmem
          rcases hmem with h1 | h1 | h1 | h1 <;> rw [h1] <;> decide
        · rw [importSecretsPass_eq_filter] at h
          have hef : e ∈ cfg.filter (fun s => isABaseSecretStorageKind s.kind == false) := by
            rw [List.mem_filter]
            refine ⟨he, ?_⟩
            have : isABaseSecretStorageKind e.kind = false := by simpa using hbase
            simp [this]
          obtain ⟨st0, stx, hok⟩ := loadAll_ok_mem env _ st2 st' e h hef
          by_contra hnk
          exact loadSecretConfig_unknown_kind env st0 e stx hnk hok

/-- Witness for C6 at a concrete configuration: one vault entry named
"v1" and one env entry, loaded from an empty registry. -/
theorem c6_witness :
    (importSecrets sampleSecretsEnv
       [ { kind := "vault", name := "v1", config := SecretConfigVal.vault
             { transitMount := "", secretMount := "", token := "tok", ns := "",
               address := "addr" } },
         { kind := "env", name := "", config := SecretConfigVal.generic
             { base64 := false, base64URLEncoded := false, base64Raw := false } } ] [] =
       Except.bind (loadAll sampleSecretsEnv []
           (List.filter (fun s => isABaseSecretStorageKind s.kind)
             [ { kind := "vault", name := "v1", config := SecretConfigVal.vault
                   { transitMount := "", secretMount := "", token := "tok", ns := "",
                     address := "addr" } },
               { kind := "env", name := "", config := SecretConfigVal.generic
                   { base64 := false, base64URLEncoded := false, base64Raw := false } } ]))
         (fun st1 => Except.bind (loadDefaultSecretConfig sampleSecretsEnv st1)
           (fun st2 => loadAll sampleSecretsEnv st2
             (List.filter (fun s => !isABaseSecretStorageKind s.kind)
               [ { kind := "vault", name := "v1", config := SecretConfigVal.vault
                     { transitMount := "", secretMount := "", token := "tok", ns := "",
                       address := "addr" } },
                 { kind := "env", name := "", config := SecretConfigVal.generic
                     { base64 := false, base64URLEncoded := false,
                       base64Raw := false } } ])))) ∧
    (hasKey [("env", SecretStorage.env
        { base64 := false, base64URLEncoded := false, base64Raw := false })] "kubernetes" =
      true → False) ∧
    (hasKey
       [ ("env", SecretStorage.env
           { base64 := false, base64URLEncoded := false, base64Raw := false }),
         ("file", SecretStorage.file { generic :=
           { base64 := false, base64URLEncoded := false, base64Raw := false }, path := "" }),
         ("plaintext", SecretStorage.plaintext
           { base64 := false, base64URLEncoded := false, base64Raw := false }),
         ("kubernetes", SecretStorage.kubernetes newKubernetesConfig) ] "kubernetes" =
      (hasKey [("env", SecretStorage.env
          { base64 := false, base64URLEncoded := false, base64Raw := false })] "kubernetes" ||
        sampleSecretsEnv.k8sEnvSet)) ∧
    (List.map secretName
       [ ({ kind := "vault", name := "v1", config := SecretConfigVal.vault
             { transitMount := "", secretMount := "", token := "tok", ns := "",
               address := "addr" } } : SecretProvider),
         { kind := "env", name := "", config := SecretConfigVal.generic
             { base64 := false, base64URLEncoded := false, base64Raw := false } } ]).Nodup ∧
    ("vault" : String) ∈ knownSecretKinds := by
  refine ⟨?_, by decide, ?_, ?_, ?_⟩
  · exact c6_import_secrets_two_pass.1 sampleSecretsEnv
      [ { kind := "vault", name := "v1", config := SecretConfigVal.vault
            { transitMount := "", secretMount := "", token := "tok", ns := "",
              address := "addr" } },
        { kind := "env", name := "", config := SecretConfigVal.generic
            { base64 := false, base64URLEncoded := false, base64Raw := false } } ] []
  · exact (c6_import_secrets_two_pass.2.1 sampleSecretsEnv
      [("env", SecretStorage.env
          { base64 := false, base64URLEncoded := false, base64Raw := false })]
      [ ("env", SecretStorage.env
          { base64 := false, base64URLEncoded := false, base64Raw := false }),
        ("file", SecretStorage.file { generic :=
          { base64 := false, base64URLEncoded := false, base64Raw := false }, path := "" }),
        ("plaintext", SecretStorage.plaintext
          { base64 := false, base64URLEncoded := false, base64Raw := false }),
        ("kubernetes", SecretStorage.kubernetes newKubernetesConfig) ]
      (by rfl)).2.2.2.1
  · exact c6_import_secrets_two_pass.2.2.1 sampleSecretsEnv
      [ { kind := "vault", name := "v1", config := SecretConfigVal.vault
            { transitMount := "", secretMount := "", token := "tok", ns := "",
              address := "addr" } },
        { kind := "env", name := "", config := SecretConfigVal.generic
            { base64 := false, base64URLEncoded := false, base64Raw := false } } ] []
      [ ("env", SecretStorage.env
          { base64 := false, base64URLEncoded := false, base64Raw := false }),
        ("file", SecretStorage.file { generic :=
          { base64 := false, base64URLEncoded := false, base64Raw := false }, path := "" }),
        ("plaintext", SecretStorage.plaintext
          { base64 := false, base64URLEncoded := false, base64Raw := false }),
        ("kubernetes", SecretStorage.kubernetes newKubernetesConfig),
        ("v1", SecretStorage.vault
          { transitMount := "/transit", secretMount := "/secret", token := "tok", ns := "",
            address := "addr" }) ] (by rfl)
  · exact c6_import_secrets_two_pass.2.2.2 sampleSecretsEnv
      [ { kind := "vault", name := "v1", config := SecretConfigVal.vault
            { transitMount := "", secretMount := "", token := "tok", ns := "",
              address := "addr" } },
        { kind := "env", name := "", config := SecretConfigVal.generic
            { base64 := false, base64URLEncoded := false, base64Raw := false } } ] []
      [ ("env", SecretStorage.env
          { base64 := false, base64URLEncoded := false, base64Raw := false }),
        ("file", SecretStorage.file { generic :=
          { base64 := false, base64URLEncoded := false, base64Raw := false }, path := "" }),
        ("plaintext", SecretStorage.plaintext
          { base64 := false, base64URLEncoded := false, base64Raw := false }),
        ("kubernetes", SecretStorage.kubernetes newKubernetesConfig),
        ("v1", SecretStorage.vault
          { transitMount := "/transit", secretMount := "/secret", token := "tok", ns := "",
            address := "addr" }) ] (by rfl)
      { kind := "vault", name := "v1", config := SecretConfigVal.vault
          { transitMount := "", secretMount := "", token := "tok", ns := "",
            address := "addr" } } (by decide)
